import Mathlib

/-!
Shallow embedding of `libgui/graphics/PushButtonControl.h` from the Octave
repository, and verification of structural claims about that header.

The header is pure declaration: it introduces the class
`QtHandles::PushButtonControl` (deriving publicly from `ButtonControl`)
with four member declarations and no definitions.  We embed the header as
an abstract syntax tree (types, parameters, member declarations, class
declaration, top-level declarations, include guard) plus the exact list of
source lines, and prove the claims over that embedding.
-/

namespace Octave

/-- C++ access specifier of a class member. -/
inductive Access where
  | pub
  | prot
  | priv
deriving DecidableEq, Repr

/-- The C++ types that occur in the header, as written there. -/
inductive CppType where
  | void : CppType
  | intT : CppType
  | constRef : String → CppType
  | ptr : String → CppType
deriving DecidableEq, Repr

/-- A formal parameter of a declared member function. -/
structure Param where
  pname : String
  ptype : CppType
deriving DecidableEq, Repr

/-- The kind of a class-member declaration. -/
inductive MemberKind where
  | ctor
  | dtor
  | staticFn
  | instFn
deriving DecidableEq, Repr

/-- A member declaration of a C++ class, as it appears in the header:
its access, kind, name, parameter list, return type (`none` for the
constructor and destructor), whether a function body is given in the
header, and whether any exception specification is declared. -/
structure Member where
  access : Access
  kind : MemberKind
  mname : String
  params : List Param
  ret : Option CppType
  hasBody : Bool
  throwSpec : Bool
deriving DecidableEq, Repr

/-- A C++ class declaration: name, public base classes, member function
declarations, and declared data members (fields). -/
structure ClassDecl where
  cname : String
  publicBases : List String
  members : List Member
  fields : List Param
deriving DecidableEq, Repr

/-- A top-level declaration of the header: an `#include` directive, a
forward class declaration at global scope, or a namespace block holding
class declarations. -/
inductive TopDecl where
  | includeDirective : String → TopDecl
  | forwardClass : String → TopDecl
  | namespaceBlock : String → List ClassDecl → TopDecl
deriving DecidableEq, Repr

/-- A guarded header: the include-guard identifier, the value its
`#define` gives it, and the top-level declarations between the guard
lines. -/
structure Header where
  guardIdent : String
  guardVal : Nat
  decls : List TopDecl
deriving DecidableEq, Repr

/-- `PushButtonControl (const graphics_object& go, QPushButton* btn);`
(line 40): the public constructor declaration. -/
def pushButtonCtor : Member :=
  { access := Access.pub
    kind := MemberKind.ctor
    mname := "PushButtonControl"
    params := [⟨"go", CppType.constRef "graphics_object"⟩,
               ⟨"btn", CppType.ptr "QPushButton"⟩]
    ret := none
    hasBody := false
    throwSpec := false }

/-- `~PushButtonControl (void);` (line 41): the public destructor
declaration. -/
def pushButtonDtor : Member :=
  { access := Access.pub
    kind := MemberKind.dtor
    mname := "~PushButtonControl"
    params := []
    ret := none
    hasBody := false
    throwSpec := false }

/-- `static PushButtonControl* create (const graphics_object& go);`
(line 43): the public static factory declaration. -/
def pushButtonCreate : Member :=
  { access := Access.pub
    kind := MemberKind.staticFn
    mname := "create"
    params := [⟨"go", CppType.constRef "graphics_object"⟩]
    ret := some (CppType.ptr "PushButtonControl")
    hasBody := false
    throwSpec := false }

/-- `void update (int pId);` (line 46): the protected property-update
hook declaration. -/
def pushButtonUpdate : Member :=
  { access := Access.prot
    kind := MemberKind.instFn
    mname := "update"
    params := [⟨"pId", CppType.intT⟩]
    ret := some CppType.void
    hasBody := false
    throwSpec := false }

/-- The class declaration `class PushButtonControl : public ButtonControl`
(lines 37-47): four member declarations, no data members. -/
def pushButtonControlClass : ClassDecl :=
  { cname := "PushButtonControl"
    publicBases := ["ButtonControl"]
    members := [pushButtonCtor, pushButtonDtor, pushButtonCreate, pushButtonUpdate]
    fields := [] }

/-- The whole header `PushButtonControl.h`: guard
`__QtHandles_PushButtonControl__` defined to `1`, one include, one global
forward declaration, and the namespace block `QtHandles` holding the
class. -/
def pushButtonControlHeader : Header :=
  { guardIdent := "__QtHandles_PushButtonControl__"
    guardVal := 1
    decls := [TopDecl.includeDirective "ButtonControl.h",
              TopDecl.forwardClass "QPushButton",
              TopDecl.namespaceBlock "QtHandles" [pushButtonControlClass]] }

/-- The exact source text of `PushButtonControl.h`, split at newlines. -/
def pushButtonControlSrcLines : List String :=
  [
    "/*",
    "",
    "Copyright (C) 2011-2014 Michael Goffioul",
    "",
    "This file is part of Octave.",
    "",
    "Octave is free software; you can redistribute it and/or modify it",
    "under the terms of the GNU General Public License as published by the",
    "Free Software Foundation; either version 3 of the License, or (at your",
    "option) any later version.",
    "",
    "Octave is distributed in the hope that it will be useful, but WITHOUT",
    "ANY WARRANTY; without even the implied warranty of MERCHANTABILITY or",
    "FITNESS FOR A PARTICULAR PURPOSE.  See the GNU General Public License",
    "for more details.",
    "",
    "You should have received a copy of the GNU General Public License",
    "along with Octave; see the file COPYING.  If not, see",
    "<http://www.gnu.org/licenses/>.",
    "",
    "*/",
    "",
    "#ifndef __QtHandles_PushButtonControl__",
    "#define __QtHandles_PushButtonControl__ 1",
    "",
    "#include \"ButtonControl.h\"",
    "",
    "class QPushButton;",
    "",
    "//////////////////////////////////////////////////////////////////////////////",
    "",
    "namespace QtHandles",
    "\x7b",
    "",
    "//////////////////////////////////////////////////////////////////////////////",
    "",
    "class PushButtonControl : public ButtonControl",
    "\x7b",
    "public:",
    "  PushButtonControl (const graphics_object& go, QPushButton* btn);",
    "  ~PushButtonControl (void);",
    "",
    "  static PushButtonControl* create (const graphics_object& go);",
    "",
    "protected:",
    "  void update (int pId);",
    "\x7d;",
    "",
    "//////////////////////////////////////////////////////////////////////////////",
    "",
    "\x7d; // namespace QtHandles",
    "",
    "//////////////////////////////////////////////////////////////////////////////",
    "",
    "#endif"
  ]

/-- The targets of the `#include` directives of a header, in order. -/
def Header.includes (h : Header) : List String :=
  h.decls.foldr (fun d acc =>
    match d with
    | TopDecl.includeDirective s => s :: acc
    | _ => acc) []

/-- The class names the header forward-declares at global scope. -/
def Header.forwardClasses (h : Header) : List String :=
  h.decls.foldr (fun d acc =>
    match d with
    | TopDecl.forwardClass n => n :: acc
    | _ => acc) []

/-- The fully qualified names of the classes the header declares inside
namespace blocks. -/
def Header.qualifiedClassNames (h : Header) : List String :=
  h.decls.foldr (fun d acc =>
    match d with
    | TopDecl.namespaceBlock ns cs => cs.map (fun c => ns ++ "::" ++ c.cname) ++ acc
    | _ => acc) []

/-- Does a C++ type mention the class name `n`? -/
def CppType.mentions (t : CppType) (n : String) : Bool :=
  match t with
  | CppType.void => false
  | CppType.intT => false
  | CppType.constRef m => m == n
  | CppType.ptr m => m == n

/-- All types occurring in a member declaration: the parameter types and
the return type, if any. -/
def Member.typesUsed (m : Member) : List CppType :=
  m.params.map Param.ptype ++ m.ret.toList

/-- All types occurring in a class declaration: those of its member
declarations and of its data members. -/
def ClassDecl.typesUsed (c : ClassDecl) : List CppType :=
  c.members.foldr (fun m acc => m.typesUsed ++ acc) (c.fields.map Param.ptype)

/-- The state of the C preprocessor, as far as include guards are
concerned: the object-like macro identifiers currently defined, with
their values, and the top-level declarations emitted so far. -/
structure PPState where
  defined : List (String × Nat)
  emitted : List TopDecl
deriving DecidableEq, Repr

/-- Including a guarded header. If the guard identifier is already
defined, the `#ifndef` skips the whole body and the state is unchanged;
otherwise the `#define` records the guard with its value and the header
body's declarations are emitted. -/
def includeHeader (h : Header) (s : PPState) : PPState :=
  if s.defined.any (fun p => p.1 == h.guardIdent) then s
  else { defined := (h.guardIdent, h.guardVal) :: s.defined
         emitted := s.emitted ++ h.decls }

end Octave

open Octave

/-- C1: `PushButtonControl` declares exactly four members — in order a
public constructor, a public destructor, a public static factory named
`create`, and a protected property-update hook named `update` — none of
which has a body in the header, and the class declares no data member of
its own. -/
theorem pushButtonControl_exactly_four_members :
    pushButtonControlClass.members.length = 4
  ∧ pushButtonControlClass.members.map Member.kind
      = [MemberKind.ctor, MemberKind.dtor, MemberKind.staticFn, MemberKind.instFn]
  ∧ pushButtonControlClass.members.map Member.access
      = [Access.pub, Access.pub, Access.pub, Access.prot]
  ∧ pushButtonControlClass.members.map Member.mname
      = ["PushButtonControl", "~PushButtonControl", "create", "update"]
  ∧ pushButtonControlClass.members.all (fun m => !m.hasBody) = true
  ∧ pushButtonControlClass.fields = [] :=
  ⟨rfl, rfl, rfl, rfl, rfl, rfl⟩

/-- C2: `PushButtonControl` publicly derives from `ButtonControl`, and
from it alone. -/
theorem pushButtonControl_derives_buttonControl :
    pushButtonControlClass.publicBases = ["ButtonControl"] :=
  rfl

/-- C3: the class has exactly one constructor declaration, and it takes
exactly two parameters: a `const graphics_object&` and a `QPushButton*`. -/
theorem pushButtonControl_ctor_params :
    pushButtonControlClass.members.filter (fun m => m.kind == MemberKind.ctor)
      = [pushButtonCtor]
  ∧ pushButtonCtor.params
      = [⟨"go", CppType.constRef "graphics_object"⟩,
         ⟨"btn", CppType.ptr "QPushButton"⟩] :=
  ⟨rfl, rfl⟩

/-- C4: the class has exactly one static member declaration, the factory
`create`; it takes a single `const graphics_object&` parameter and
returns a `PushButtonControl*`. -/
theorem pushButtonControl_create_signature :
    pushButtonControlClass.members.filter (fun m => m.kind == MemberKind.staticFn)
      = [pushButtonCreate]
  ∧ pushButtonCreate.mname = "create"
  ∧ pushButtonCreate.params = [⟨"go", CppType.constRef "graphics_object"⟩]
  ∧ pushButtonCreate.ret = some (CppType.ptr "PushButtonControl") :=
  ⟨rfl, rfl, rfl, rfl⟩

/-- C5: the class declaration introduces no data member of its own; the
only widget state it touches is the external `QPushButton*` received as
the constructor parameter `btn`. -/
theorem pushButtonControl_no_own_state :
    pushButtonControlClass.fields = []
  ∧ (pushButtonControlClass.typesUsed.filter
       (fun t => t.mentions "QPushButton"))
      = [CppType.ptr "QPushButton"]
  ∧ pushButtonCtor.params.filter (fun p => p.ptype == CppType.ptr "QPushButton")
      = [⟨"btn", CppType.ptr "QPushButton"⟩] :=
  ⟨rfl, rfl, rfl⟩

/-- C6: no member declares an error path — the return types are, in
order, none (constructor), none (destructor), `PushButtonControl*`
(factory) and `void` (`update`), and no member carries an exception
specification. -/
theorem pushButtonControl_no_error_paths :
    pushButtonControlClass.members.map Member.ret
      = [none, none, some (CppType.ptr "PushButtonControl"), some CppType.void]
  ∧ pushButtonUpdate.ret = some CppType.void
  ∧ pushButtonControlClass.members.all (fun m => !m.throwSpec) = true :=
  ⟨rfl, rfl, rfl⟩

/-- C7: the source fragment `PushButtonControl.h` is exactly 55 lines
long. -/
theorem pushButtonControl_src_55_lines :
    pushButtonControlSrcLines.length = 55 :=
  rfl

/-- C8: the include guard makes the header idempotent — its guard macro
is `__QtHandles_PushButtonControl__`, defined to `1`, and including the
header twice from any preprocessor state yields the same state as
including it once. -/
theorem pushButtonControl_include_idempotent :
    pushButtonControlHeader.guardIdent = "__QtHandles_PushButtonControl__"
  ∧ pushButtonControlHeader.guardVal = 1
  ∧ ∀ s : PPState,
      includeHeader pushButtonControlHeader (includeHeader pushButtonControlHeader s)
        = includeHeader pushButtonControlHeader s := by
  refine ⟨rfl, rfl, fun s => ?_⟩
  simp only [includeHeader]
  by_cases hdef :
      (s.defined.any fun p => p.1 == pushButtonControlHeader.guardIdent) = true
  · simp [hdef]
  · simp [hdef]

/-- Witness for C8: including the header twice from the empty
preprocessor state equals including it once. -/
theorem pushButtonControl_include_idempotent_witness :
    includeHeader pushButtonControlHeader
        (includeHeader pushButtonControlHeader ⟨[], []⟩)
      = includeHeader pushButtonControlHeader ⟨[], []⟩ :=
  pushButtonControl_include_idempotent.2.2 ⟨[], []⟩

/-- C9: the header's top-level declarations are exactly one include, the
global forward declaration of `QPushButton`, and the namespace block
`QtHandles` holding the single class, whose fully qualified name is
therefore `QtHandles::PushButtonControl`. -/
theorem pushButtonControl_in_namespace_qtHandles :
    pushButtonControlHeader.decls
      = [TopDecl.includeDirective "ButtonControl.h",
         TopDecl.forwardClass "QPushButton",
         TopDecl.namespaceBlock "QtHandles" [pushButtonControlClass]]
  ∧ pushButtonControlHeader.qualifiedClassNames = ["QtHandles::PushButtonControl"]
  ∧ pushButtonControlHeader.forwardClasses = ["QPushButton"] :=
  ⟨rfl, rfl, rfl⟩

/-- C10: the header's only include is `ButtonControl.h`; `QPushButton`
appears only as a global forward declaration, and every use of it in the
class is through a pointer type. -/
theorem pushButtonControl_qPushButton_only_ptr :
    pushButtonControlHeader.includes = ["ButtonControl.h"]
  ∧ pushButtonControlHeader.forwardClasses = ["QPushButton"]
  ∧ pushButtonControlClass.typesUsed.all
      (fun t => !(t.mentions "QPushButton") || (t == CppType.ptr "QPushButton"))
      = true :=
  ⟨rfl, rfl, rfl⟩
